import Mathlib

/-!
# Verification of the ray-tracing traversal core

Shallow embedding of the repository's ray-tracing core:
`src/raytracing/rayvisitor.ts` (the traversal engine) and
`src/math/transformation.ts` (the transform model), together with
spec-modelled stand-ins for the math-kernel modules (`math/matrix.ts`,
`math/vector.ts`, `math/ray.ts`, `math/intersection.ts`, `phong.ts`,
`objects/*`) whose sources are not part of the repository snapshot.

Numbers are modelled as exact rationals (`ℚ`).  The one place where
JavaScript floating-point semantics is observable for the claims under
study — division by zero in the world-parameter recomputation of
`RayVisitor.visitNode` — is modelled by the type `JsNum`, which carries
the IEEE special values `Infinity`, `-Infinity` and `NaN` produced by a
JavaScript division.

The file is organised as: all definitions first, then all theorems.
-/

/-! ## Geometry kernel -/

/-- Homogeneous 4-component vector.
Modelled from the spec (§3 Data Model): `math/vector.ts` is not in the
snapshot.  `w = 1` marks a point, `w = 0` a direction; the components
double as an (r,g,b) color. -/
structure Vec where
  x : ℚ
  y : ℚ
  z : ℚ
  w : ℚ
deriving DecidableEq

/-- Modelled from the spec: `Vector.mul` (scalar multiplication), used by
`Translation.recalculate` and `Scaling.recalculate` as `.mul(-1)`. -/
def Vec.mul (v : Vec) (k : ℚ) : Vec :=
  ⟨v.x * k, v.y * k, v.z * k, v.w * k⟩

/-- Matrices are 4×4 over ℚ, the repository's `Matrix` (§3: "4x4 affine
transform"). -/
abbrev Mat := Matrix (Fin 4) (Fin 4) ℚ

instance : DecidableEq Mat :=
  fun A B => decidable_of_iff (∀ i j, A i j = B i j) Matrix.ext_iff

/-- Modelled from the spec: `Matrix.mulVec` of `math/matrix.ts`, the usual
matrix-times-homogeneous-vector product. -/
def mulVecV (m : Mat) (v : Vec) : Vec :=
  ⟨m 0 0 * v.x + m 0 1 * v.y + m 0 2 * v.z + m 0 3 * v.w,
   m 1 0 * v.x + m 1 1 * v.y + m 1 2 * v.z + m 1 3 * v.w,
   m 2 0 * v.x + m 2 1 * v.y + m 2 2 * v.z + m 2 3 * v.w,
   m 3 0 * v.x + m 3 1 * v.y + m 3 2 * v.z + m 3 3 * v.w⟩

/-- Modelled from the spec: `Matrix.translation` of `math/matrix.ts`
(standard homogeneous translation matrix). -/
def translationM (v : Vec) : Mat :=
  !![1, 0, 0, v.x;
     0, 1, 0, v.y;
     0, 0, 1, v.z;
     0, 0, 0, 1]

/-- Modelled from the spec: `Matrix.scaling` of `math/matrix.ts`
(standard homogeneous scaling matrix). -/
def scalingM (v : Vec) : Mat :=
  !![v.x, 0,   0,   0;
     0,   v.y, 0,   0;
     0,   0,   v.z, 0;
     0,   0,   0,   1]

/-- Rational square root, exact: `some r` when `q = r^2` with `r ≥ 0`,
otherwise `none`.  Helper for the exact-arithmetic model of
`Vector.normalize`. -/
def ratSqrt (q : ℚ) : Option ℚ :=
  let sn := Nat.sqrt q.num.toNat
  let sd := Nat.sqrt q.den
  if 0 ≤ q.num ∧ sn * sn = q.num.toNat ∧ sd * sd = q.den then
    some ((sn : ℚ) / (sd : ℚ))
  else
    none

/-- Squared Euclidean length of the spatial part. -/
def length2 (v : Vec) : ℚ := v.x ^ 2 + v.y ^ 2 + v.z ^ 2

/-- Modelled from the spec: `Vector.normalize` of `math/vector.ts`
(division of the spatial components by the Euclidean length).  In the
exact rational embedding the division is performed when the length is
rational; every concrete vector evaluated by the theorems below has
rational (indeed unit) length, so this partial model is exact on all
inputs that occur. -/
def Vec.normalize (v : Vec) : Vec :=
  match ratSqrt (length2 v) with
  | some l => if l = 0 then v else ⟨v.x / l, v.y / l, v.z / l, v.w⟩
  | none => v

/-! ## Transform model, `src/math/transformation.ts`

Classes `Translation` and `Scaling` are embedded as pairs of matrices,
exactly as the class holds `matrix` and `inverse` fields.  The
constructor and the setter-triggered `recalculate` are separate
functions because they compute the inverse differently (this difference
is the subject of claim C1). -/

/-- A `MatrixTransformation`: the pair of fields `matrix`/`inverse`
returned by `getMatrix()`/`getInverseMatrix()`. -/
structure Transform where
  matrix : Mat
  inverse : Mat
deriving DecidableEq

/-- Constructor `new Translation(translation)`: forward
`Matrix.translation(t)`, inverse `Matrix.translation(t.mul(-1))`. -/
def Translation.new (t : Vec) : Transform :=
  ⟨translationM t, translationM (t.mul (-1))⟩

/-- Method `Translation.recalculate` (run by the `translationVector`
setter): same formulas as the constructor. -/
def Translation.recalculate (t : Vec) : Transform :=
  ⟨translationM t, translationM (t.mul (-1))⟩

/-- Constructor `new Scaling(scale)`: forward `Matrix.scaling(s)`,
inverse `Matrix.scaling(new Vector(1/s.x, 1/s.y, 1/s.z, 0))`. -/
def Scaling.new (s : Vec) : Transform :=
  ⟨scalingM s, scalingM ⟨1 / s.x, 1 / s.y, 1 / s.z, 0⟩⟩

/-- Method `Scaling.recalculate` (run by the `scale` setter): forward
`Matrix.scaling(s)`, but inverse `Matrix.scaling(s.mul(-1))` — the
negation recipe copied from `Translation` ("siehe translation inverse"). -/
def Scaling.recalculate (s : Vec) : Transform :=
  ⟨scalingM s, scalingM (s.mul (-1))⟩

/-- Setter `scale`: stores the new vector and runs `recalculate`. -/
def Scaling.setScale (_old : Transform) (s : Vec) : Transform :=
  Scaling.recalculate s

/-! ## JavaScript numbers at the division site

Everything else in the pipeline is exact rational arithmetic, but the
world-parameter recomputation of `RayVisitor.visitNode` divides by a ray
direction component that can be zero, and JavaScript then produces
`Infinity`, `-Infinity` or `NaN`.  `JsNum` models the value of a
JavaScript division and the `<` comparison on such values. -/

/-- A JavaScript number: finite (exact rational) or one of the IEEE
special values. -/
inductive JsNum where
  | fin : ℚ → JsNum
  | posInf : JsNum
  | negInf : JsNum
  | nan : JsNum
deriving DecidableEq

/-- JavaScript division `a / b` (for `b = 0`: `0/0 = NaN`,
`a/0 = ±Infinity`). -/
def jsDiv (a b : ℚ) : JsNum :=
  if b = 0 then
    if a = 0 then .nan else if 0 < a then .posInf else .negInf
  else
    .fin (a / b)

/-- JavaScript `<` on numbers: any comparison with `NaN` is false,
`-Infinity` is below and `Infinity` above every other value. -/
def jsLt : JsNum → JsNum → Bool
  | .nan, _ => false
  | _, .nan => false
  | .negInf, .negInf => false
  | .negInf, _ => true
  | _, .negInf => false
  | .posInf, _ => false
  | .fin _, .posInf => true
  | .fin a, .fin b => a < b

/-- Ray of `math/ray.ts`: origin plus direction.  Modelled from the
spec (§3). -/
structure Ray where
  origin : Vec
  direction : Vec
deriving DecidableEq

/-- Intersection of `math/intersection.ts`: ray parameter, hit point,
normal.  Modelled from the spec (§3); the parameter is a `JsNum`
because `RayVisitor.visitNode` stores the result of a JavaScript
division here. -/
structure Intersection where
  t : JsNum
  point : Vec
  normal : Vec
deriving DecidableEq

/-- Modelled from the spec (§3, §8): `Intersection.closerThan` is the
strict comparison `A.t < B.t`. -/
def closerThan (a b : Intersection) : Bool :=
  jsLt a.t b.t

/-! ## Scene graph, `src/nodes.ts` (modelled from the spec)

File `nodes.ts` is not in the snapshot.  The node kinds are the ones
the visitor interface (`src/visitor.ts`) dispatches on; a `GroupNode`
owns a transform and an ordered child list, shape leaves own a flat
color (`Option Vec`, `none` modelling a JavaScript `undefined` color),
and `CustomShapeNode` owns its vertex/index buffers.  `NodeList` is the
child list (a separate inductive so that the traversal is structurally
recursive). -/

mutual
inductive Node where
  | group : Transform → NodeList → Node
  | sphere : Option Vec → Node
  | aabox : Option Vec → Node
  | pyramid : Option Vec → Node
  | customShape : List Vec → List ℕ → Option Vec → Node
  | textureBox : Node
  | textureVideoBox : Node
  | textureTextBox : Node
  | texturePyramid : Node
  | camera : Node
  | light : Node
deriving DecidableEq
inductive NodeList where
  | nil : NodeList
  | cons : Node → NodeList → NodeList
deriving DecidableEq
end

/-- The canonical unit primitive handed to the Intersection Engine:
`UNIT_SPHERE`, `UNIT_AABOX`, `UNIT_PYRAMID` of `rayvisitor.ts`, or a
`CustomShape` built from a node's own buffers. -/
inductive Shape where
  | unitSphere : Shape
  | unitBox : Shape
  | unitPyramid : Shape
  | custom : List Vec → List ℕ → Shape
deriving DecidableEq

/-- The camera record built by `RayVisitor.visitCameraNode`.  `alpha` is
stored in units of π (the code stores `Math.PI / 3`, here `1/3`), since
π itself is irrational. -/
structure CameraRT where
  origin : Vec
  width : ℚ
  height : ℚ
  alpha : ℚ
  toWorld : Mat
deriving DecidableEq

/-- The (ignored) `camera` argument of `RayVisitor.render`.  `alpha` in
units of π, as in `CameraRT`. -/
structure CameraArg where
  origin : Vec
  width : ℚ
  height : ℚ
  alpha : ℚ
deriving DecidableEq

/-- Record `PhongValues` of the boilerplate: the four Phong
coefficients. -/
structure PhongValues where
  ambient : ℚ
  diffuse : ℚ
  specular : ℚ
  shininess : ℚ
deriving DecidableEq

/-- The collaborator functions whose sources are not in the snapshot,
modelled from the spec as parameters of the traversal:
`Ray.makeRay` (§4.1 pinhole ray construction), the Intersection Engine
`intersect` (§4.2, `unitObject.intersect(ray)`), and the Shading Engine
`phong` (§4.3, `phong(color, intersection, lights, phongValues, eye)`).
Every theorem below holds for an arbitrary `Params`, or evaluates a
concrete instantiation stated with it. -/
structure Params where
  makeRay : ℚ → ℚ → CameraRT → Ray
  intersect : Shape → Ray → Option Intersection
  phong : Vec → Intersection → List Vec → PhongValues → Vec → Vec

/-- The mutable fields of `RayVisitor` that the traversal reads and
writes.  Stacks grow at the head (`push` = cons, `pop` = tail, top =
head).  `Option` fields model JavaScript fields that may still be
`undefined`; reading through such a field faults (the traversal returns
`none`, modelling the thrown `TypeError`). -/
structure VState where
  x : ℚ
  y : ℚ
  transformations : List Mat
  invTransformations : List Mat
  objectIntersections : List (Intersection × Ray × Node)
  intersection : Option Intersection
  intersectionColor : Option Vec
  ray : Option Ray
  camera : Option CameraRT
  lightPositions : List Vec
deriving DecidableEq

/-- Line 162 of `rayvisitor.ts`: the object-space ray — `this.ray`
pulled through the top of the inverse stack, direction renormalized. -/
def objectRay (fromWorld : Mat) (worldRay : Ray) : Ray :=
  ⟨mulVecV fromWorld worldRay.origin,
   (mulVecV fromWorld worldRay.direction).normalize⟩

/-- Lines 167–169 of `rayvisitor.ts`: the intersection the visitor
stores on a hit — point and normal pushed back to world space through
the forward matrix, and the parameter recomputed as
`(intersectionPointWorld.x - ray.origin.x) / ray.direction.x`, where
`ray` is the *object-space* ray (the local `ray` shadows `this.ray`). -/
def worldIntersection (toWorld : Mat) (ray : Ray) (ix : Intersection) : Intersection :=
  ⟨jsDiv ((mulVecV toWorld ix.point).x - ray.origin.x) ray.direction.x,
   mulVecV toWorld ix.point,
   (mulVecV toWorld ix.normal).normalize⟩

/-- Method `RayVisitor.visitNode`, the shared body of the shape-node
visits: pull the current ray into object space via the top of the
inverse stack, intersect the canonical unit primitive, and on a hit
store `worldIntersection`, replacing the best intersection only when
strictly closer (`closerThan`).  Reading `this.ray` (or a stack top)
while it is still `undefined` faults. -/
def visitNode (P : Params) (color : Option Vec) (shape : Shape) (node : Node)
    (s : VState) : Option VState :=
  match s.transformations.head?, s.invTransformations.head?, s.ray with
  | some toWorld, some fromWorld, some worldRay =>
    let ray : Ray := objectRay fromWorld worldRay
    match P.intersect shape ray with
    | none => some s
    | some ix =>
      let objInts := s.objectIntersections ++ [(ix, ray, node)]
      let ix2 : Intersection := worldIntersection toWorld ray ix
      match s.intersection with
      | none =>
        some { s with objectIntersections := objInts,
                      intersection := some ix2, intersectionColor := color }
      | some best =>
        if closerThan ix2 best then
          some { s with objectIntersections := objInts,
                        intersection := some ix2, intersectionColor := color }
        else
          some { s with objectIntersections := objInts }
  | _, _, _ => none

/-- Method `RayVisitor.visitCameraNode`: build the camera record from
the top of the forward stack with the hardcoded plane width `100`,
height `100` and `alpha = π/3`, then build the pixel ray with
`Ray.makeRay`. -/
def visitCameraNode (P : Params) (s : VState) : Option VState :=
  match s.transformations.head? with
  | some toWorld =>
    let cam : CameraRT := ⟨mulVecV toWorld ⟨0, 0, 0, 1⟩, 100, 100, 1 / 3, toWorld⟩
    some { s with camera := some cam, ray := some (P.makeRay s.x s.y cam) }
  | none => none

/-- Method `RayVisitor.visitLightNode`: append the world position of
the origin under the top of the forward stack to the light list. -/
def visitLightNode (s : VState) : Option VState :=
  match s.transformations.head? with
  | some toWorld =>
    some { s with lightPositions := s.lightPositions ++ [mulVecV toWorld ⟨0, 0, 0, 1⟩] }
  | none => none

mutual
/-- The double-dispatch `accept`/`visit` of `RayVisitor` over the node
kinds.  A group pushes `top · transform.matrix` on the forward stack and
`transform.inverseMatrix · topInverse` on the inverse stack, visits the
children in list order, and pops both afterwards (a fault inside a child
propagates without popping, as a thrown exception would). -/
def visit (P : Params) : Node → VState → Option VState
  | .group t cs, s =>
    match s.transformations.head?, s.invTransformations.head? with
    | some top, some topInv =>
      let s1 := { s with
        transformations := (top * t.matrix) :: s.transformations,
        invTransformations := (t.inverse * topInv) :: s.invTransformations }
      match visitList P cs s1 with
      | some s2 =>
        some { s2 with transformations := s2.transformations.tail,
                       invTransformations := s2.invTransformations.tail }
      | none => none
    | _, _ => none
  | .sphere c, s => visitNode P c .unitSphere (.sphere c) s
  | .aabox c, s => visitNode P c .unitBox (.aabox c) s
  | .pyramid c, s => visitNode P c .unitPyramid (.pyramid c) s
  | .customShape vs idx c, s => visitNode P c (.custom vs idx) (.customShape vs idx c) s
  | .textureBox, s => some s
  | .textureVideoBox, s => some s
  | .textureTextBox, s => some s
  | .texturePyramid, s => some s
  | .camera, s => visitCameraNode P s
  | .light, s => visitLightNode s

/-- Children are visited in list order; a fault aborts the walk. -/
def visitList (P : Params) : NodeList → VState → Option VState
  | .nil, s => some s
  | .cons n ns, s =>
    match visit P n s with
    | some s1 => visitList P ns s1
    | none => none
end

/-- One output pixel: the four RGBA channel values the code assigns
(`color.r * 255`, …; the browser's byte conversion is outside the
repository). -/
abbrev Px := ℚ × ℚ × ℚ × ℚ

/-- The per-pixel write of `RayVisitor.render` (lines 101–114): no
intersection leaves the pixel untouched (`some none`); an intersection
with an unresolvable color writes opaque black; otherwise the Phong
color is written with alpha `255`.  Reading `this.camera.origin` with
`camera` still `undefined` faults (`none`). -/
def shadeResult (P : Params) (phongValues : PhongValues) (s : VState) :
    Option (Option Px) :=
  match s.intersection with
  | none => some none
  | some ix =>
    match s.intersectionColor with
    | none => some (some (0, 0, 0, 255))
    | some c =>
      match s.camera with
      | none => none
      | some cam =>
        let color := P.phong c ix s.lightPositions phongValues cam.origin
        some (some (color.x * 255, color.y * 255, color.z * 255, 255))

/-- The fields of `RayVisitor` that survive from one pixel to the next
(they are not reset by the per-pixel loop). -/
structure Persist where
  intersectionColor : Option Vec
  ray : Option Ray
  camera : Option CameraRT
deriving DecidableEq

/-- The per-pixel reset of `RayVisitor.render` (lines 89–97): fresh
stacks holding the identity, empty light list and object-intersection
list, no best intersection; `intersectionColor`, `ray` and `camera`
keep their previous values. -/
def initPixelState (x y : ℚ) (per : Persist) : VState :=
  { x := x, y := y,
    transformations := [1], invTransformations := [1],
    objectIntersections := [],
    intersection := none,
    intersectionColor := per.intersectionColor,
    ray := per.ray, camera := per.camera,
    lightPositions := [] }

/-- One iteration of the pixel loop: reset, traverse, shade. -/
def renderPixel (P : Params) (scene : Node) (phongValues : PhongValues)
    (x y : ℚ) (per : Persist) : Option (Px × Persist) :=
  match visit P scene (initPixelState x y per) with
  | none => none
  | some s1 =>
    match shadeResult P phongValues s1 with
    | none => none
    | some none =>
      some ((0, 0, 0, 0),
        ⟨s1.intersectionColor, s1.ray, s1.camera⟩)
    | some (some px) =>
      some (px, ⟨s1.intersectionColor, s1.ray, s1.camera⟩)

/-- The pixel loop order: `x` outer, `y` inner, exactly as the nested
`for` loops of `render`. -/
def pixelSeq (width height : ℕ) : List (ℕ × ℕ) :=
  (List.range width).flatMap fun x => (List.range height).map fun y => (x, y)

/-- Runs the pixel loop, threading the persistent visitor fields, and
collects each pixel's final RGBA values in iteration order.  A pixel
without a write keeps the `data.fill(0)` background `(0,0,0,0)`. -/
def renderLoop (P : Params) (scene : Node) (phongValues : PhongValues) :
    List (ℕ × ℕ) → Persist → Option (List ((ℕ × ℕ) × Px))
  | [], _ => some []
  | (x, y) :: rest, per =>
    match renderPixel P scene phongValues (x : ℚ) (y : ℚ) per with
    | none => none
    | some (px, per') =>
      match renderLoop P scene phongValues rest per' with
      | none => none
      | some out => some (((x, y), px) :: out)

/-- Method `RayVisitor.render(rootNode, camera, lightPositions,
phongValues)`.  The `camera` and `lightPositions` arguments are received
but never read by the body — the camera ray comes from the scene's
`CameraNode` and the lights from the `LightNode`s visited per pixel. -/
def render (P : Params) (scene : Node) (_camera : CameraArg)
    (_lightPositions : List Vec) (phongValues : PhongValues)
    (width height : ℕ) : Option (List ((ℕ × ℕ) × Px)) :=
  renderLoop P scene phongValues (pixelSeq width height) ⟨none, none, none⟩

/-! ## Concrete data for evaluations -/

/-- Formula the spec prescribes for the recomputed parameter (§4.1):
offset between the *world* hit point and the *world* ray origin over the
*world* ray direction component.  Stated from the spec's words, to be
compared with the code's `worldIntersection`. -/
def specWorldSpaceT (worldHit : Vec) (worldRay : Ray) : JsNum :=
  jsDiv (worldHit.x - worldRay.origin.x) worldRay.direction.x

/-- A trivial instantiation of the collaborator parameters: the
Intersection Engine always misses, shading returns the material color. -/
def P0 : Params :=
  ⟨fun _ _ cam => ⟨cam.origin, ⟨0, 0, -1, 0⟩⟩,
   fun _ _ => none,
   fun c _ _ _ _ => c⟩

/-- Intersection Engine instantiation for the C2 evaluation: at the
object-space ray `((2,0,0), (-1,0,0))` the true unit-sphere hit is
`t = 1`, point `(1,0,0)` (on the sphere: `1² + 0² + 0² = 1`; on the
ray: `(2,0,0) + 1·(-1,0,0) = (1,0,0)`), outward normal `(1,0,0)` —
exactly what §4.2 requires.  Elsewhere it misses. -/
def Pc2 : Params :=
  { P0 with intersect := fun sh r =>
      match sh with
      | .unitSphere =>
        if r = ⟨⟨2, 0, 0, 1⟩, ⟨-1, 0, 0, 0⟩⟩ then
          some ⟨.fin 1, ⟨1, 0, 0, 1⟩, ⟨1, 0, 0, 0⟩⟩
        else none
      | _ => none }

/-- Visitor state for the C2 evaluation: the stacks hold the transform
`Translation((5,0,0))` (a shape inside one translated group), and the
world camera ray is `((7,0,0), (-1,0,0))`. -/
def sC2 : VState :=
  { x := 0, y := 0,
    transformations := [translationM ⟨5, 0, 0, 0⟩],
    invTransformations := [translationM ⟨-5, 0, 0, 0⟩],
    objectIntersections := [],
    intersection := none, intersectionColor := none,
    ray := some ⟨⟨7, 0, 0, 1⟩, ⟨-1, 0, 0, 0⟩⟩,
    camera := none, lightPositions := [] }

/-- Intersection Engine instantiation for the C3 evaluation: at the
object-space ray `((0,0,5), (0,0,-1))` the true unit-sphere hit is
`t = 4`, point `(0,0,1)`, outward normal `(0,0,1)` (§4.2).  Elsewhere
it misses. -/
def Pc3 : Params :=
  { P0 with intersect := fun sh r =>
      match sh with
      | .unitSphere =>
        if r = ⟨⟨0, 0, 5, 1⟩, ⟨0, 0, -1, 0⟩⟩ then
          some ⟨.fin 4, ⟨0, 0, 1, 1⟩, ⟨0, 0, 1, 0⟩⟩
        else none
      | _ => none }

/-- Visitor state for the C3 evaluation: stacks hold
`Translation((5,0,0))`, world ray `((5,0,5), (0,0,-1))` — its direction
has a zero x-component. -/
def sC3 : VState :=
  { x := 0, y := 0,
    transformations := [translationM ⟨5, 0, 0, 0⟩],
    invTransformations := [translationM ⟨-5, 0, 0, 0⟩],
    objectIntersections := [],
    intersection := none, intersectionColor := none,
    ray := some ⟨⟨5, 0, 5, 1⟩, ⟨0, 0, -1, 0⟩⟩,
    camera := none, lightPositions := [] }

/-- Intersection Engine instantiation for the C8 evaluation: at the
object-space ray `((3,0,0), (-1,0,0))` the true unit-sphere hit is
`t = 2`, point `(1,0,0)`, outward normal `(1,0,0)` (§4.2). -/
def Pc8 : Params :=
  { P0 with intersect := fun sh r =>
      match sh with
      | .unitSphere =>
        if r = ⟨⟨3, 0, 0, 1⟩, ⟨-1, 0, 0, 0⟩⟩ then
          some ⟨.fin 2, ⟨1, 0, 0, 1⟩, ⟨1, 0, 0, 0⟩⟩
        else none
      | _ => none }

/-- Visitor state for the C8 evaluation: identity stacks, world ray
`((3,0,0), (-1,0,0))`, and a previously stored best intersection whose
parameter is also `2` — an exact tie with the incoming candidate. -/
def sC8 : VState :=
  { x := 0, y := 0,
    transformations := [1], invTransformations := [1],
    objectIntersections := [],
    intersection := some ⟨.fin 2, ⟨9, 9, 9, 1⟩, ⟨1, 0, 0, 0⟩⟩,
    intersectionColor := some ⟨5, 5, 5, 1⟩,
    ray := some ⟨⟨3, 0, 0, 1⟩, ⟨-1, 0, 0, 0⟩⟩,
    camera := none, lightPositions := [] }

/-- Visitor state for the C9 evaluation: a best intersection exists but
the recorded color is absent. -/
def sC9 : VState :=
  { x := 0, y := 0,
    transformations := [1], invTransformations := [1],
    objectIntersections := [],
    intersection := some ⟨.fin 1, ⟨0, 0, -1, 1⟩, ⟨0, 0, 1, 0⟩⟩,
    intersectionColor := none,
    ray := none, camera := none, lightPositions := [] }

/-- The default persistent fields at the start of `render` (all three
still `undefined`). -/
def per0 : Persist := ⟨none, none, none⟩

/-- A fresh per-pixel state for pixel `(0,0)` of a fresh visitor. -/
def sInit : VState := initPixelState 0 0 per0

/-- A group transform whose matrix and inverse are both the identity. -/
def idT : Transform := ⟨1, 1⟩

/-- Scene in which a light node is visited before the camera node. -/
def sceneLightFirst : Node := .group idT (.cons .light (.cons .camera .nil))

/-- The Phong configuration used by the repository's entry point. -/
def pv0 : PhongValues := ⟨8/10, 5/10, 5/10, 10⟩

/-- An arbitrary first value for the ignored `camera` argument. -/
def arg0 : CameraArg := ⟨⟨0, 0, 0, 1⟩, 1, 1, 1/3⟩

/-- A different value for the ignored `camera` argument. -/
def argB : CameraArg := ⟨⟨9, 9, 9, 1⟩, 2, 2, 1/2⟩

/-! # Theorems -/

/-! ## Basic evaluation lemmas -/

theorem ratSqrt_one : ratSqrt 1 = some 1 := by
  simp [ratSqrt]

/-- Vectors of unit length are fixed by `normalize`. -/
theorem Vec.normalize_of_length2_one (v : Vec) (h : length2 v = 1) :
    v.normalize = v := by
  unfold Vec.normalize
  rw [h, ratSqrt_one]
  simp

theorem mulVecV_one (v : Vec) : mulVecV 1 v = v := by
  simp [mulVecV, Matrix.one_apply]

theorem mulVecV_translationM (t v : Vec) :
    mulVecV (translationM t) v =
      ⟨v.x + t.x * v.w, v.y + t.y * v.w, v.z + t.z * v.w, v.w⟩ := by
  simp [mulVecV, translationM, Matrix.vecHead, Matrix.vecTail]

theorem jsLt_irrefl (t : JsNum) : jsLt t t = false := by
  cases t <;> simp [jsLt]

theorem jsDiv_pos_zero (a : ℚ) (h : 0 < a) : jsDiv a 0 = .posInf := by
  simp [jsDiv, h, h.ne']

/-! ## C1 — transformation inverses under mutation -/

/-- C1: the claim says every Transformation keeps
`getMatrix() * getInverseMatrix() = identity` also after a setter-driven
recalculation.  Evaluating the code at the failing input: a `Scaling`
constructed with scale `(2,2,2,0)` satisfies the invariant, but after the
`scale` setter reassigns the same vector `(2,2,2,0)`, `recalculate` sets
the inverse to `Matrix.scaling((-2,-2,-2,0))` and the product becomes
`diag(-4,-4,-4,1) ≠ identity`. -/
theorem c1_scaling_setter_breaks_inverse :
    (Scaling.new ⟨2, 2, 2, 0⟩).matrix * (Scaling.new ⟨2, 2, 2, 0⟩).inverse = 1 ∧
    (Scaling.setScale (Scaling.new ⟨2, 2, 2, 0⟩) ⟨2, 2, 2, 0⟩).matrix *
      (Scaling.setScale (Scaling.new ⟨2, 2, 2, 0⟩) ⟨2, 2, 2, 0⟩).inverse ≠ 1 := by
  constructor
  · ext i j
    fin_cases i <;> fin_cases j <;>
      simp [Scaling.new, scalingM, Matrix.mul_apply, Fin.sum_univ_four,
        Matrix.vecHead, Matrix.vecTail, Matrix.one_apply]
  · intro h
    have h2 : ((Scaling.setScale (Scaling.new ⟨2, 2, 2, 0⟩) ⟨2, 2, 2, 0⟩).matrix *
        (Scaling.setScale (Scaling.new ⟨2, 2, 2, 0⟩) ⟨2, 2, 2, 0⟩).inverse) 0 0 =
        (1 : Mat) 0 0 := by rw [h]
    simp [Scaling.setScale, Scaling.recalculate, Vec.mul, scalingM, Matrix.mul_apply,
      Fin.sum_univ_four, Matrix.vecHead, Matrix.vecTail, Matrix.one_apply] at h2
    norm_num at h2

/-! ## Characterizations of the visit functions -/

/-- A shape visit that misses returns the state unchanged. -/
theorem visitNode_miss (P : Params) (c : Option Vec) (sh : Shape) (nd : Node)
    (s : VState) (toWorld fromWorld : Mat) (wray : Ray)
    (h1 : s.transformations.head? = some toWorld)
    (h2 : s.invTransformations.head? = some fromWorld)
    (h3 : s.ray = some wray)
    (h4 : P.intersect sh (objectRay fromWorld wray) = none) :
    visitNode P c sh nd s = some s := by
  unfold visitNode
  rw [h1, h2, h3]
  dsimp only
  rw [h4]

/-- A shape visit that hits with no previous best intersection stores
`worldIntersection` and the node's color. -/
theorem visitNode_hit_first (P : Params) (c : Option Vec) (sh : Shape) (nd : Node)
    (s : VState) (toWorld fromWorld : Mat) (wray : Ray) (ix : Intersection)
    (h1 : s.transformations.head? = some toWorld)
    (h2 : s.invTransformations.head? = some fromWorld)
    (h3 : s.ray = some wray)
    (h4 : P.intersect sh (objectRay fromWorld wray) = some ix)
    (h5 : s.intersection = none) :
    visitNode P c sh nd s =
      some { s with
        objectIntersections :=
          s.objectIntersections ++ [(ix, objectRay fromWorld wray, nd)],
        intersection := some (worldIntersection toWorld (objectRay fromWorld wray) ix),
        intersectionColor := c } := by
  unfold visitNode
  rw [h1, h2, h3]
  dsimp only
  rw [h4, h5]

/-- A shape visit that hits with a previous best replaces it exactly
when the candidate is strictly closer. -/
theorem visitNode_hit_best (P : Params) (c : Option Vec) (sh : Shape) (nd : Node)
    (s : VState) (toWorld fromWorld : Mat) (wray : Ray) (ix best : Intersection)
    (h1 : s.transformations.head? = some toWorld)
    (h2 : s.invTransformations.head? = some fromWorld)
    (h3 : s.ray = some wray)
    (h4 : P.intersect sh (objectRay fromWorld wray) = some ix)
    (h5 : s.intersection = some best) :
    visitNode P c sh nd s =
      some (if closerThan (worldIntersection toWorld (objectRay fromWorld wray) ix) best then
        { s with
          objectIntersections :=
            s.objectIntersections ++ [(ix, objectRay fromWorld wray, nd)],
          intersection := some (worldIntersection toWorld (objectRay fromWorld wray) ix),
          intersectionColor := c }
      else
        { s with
          objectIntersections :=
            s.objectIntersections ++ [(ix, objectRay fromWorld wray, nd)] }) := by
  unfold visitNode
  rw [h1, h2, h3]
  dsimp only
  rw [h4, h5]
  dsimp only
  split <;> simp_all

/-! ## Stack discipline -/

/-- A shape-node visit never touches the two matrix stacks. -/
theorem visitNode_stacks (P : Params) (c : Option Vec) (sh : Shape) (nd : Node)
    (s s' : VState) (h : visitNode P c sh nd s = some s') :
    s'.transformations = s.transformations ∧
    s'.invTransformations = s.invTransformations := by
  unfold visitNode at h
  split at h
  · dsimp only at h
    split at h
    · cases h; exact ⟨rfl, rfl⟩
    · split at h
      · cases h; exact ⟨rfl, rfl⟩
      · split at h
        · cases h; exact ⟨rfl, rfl⟩
        · cases h; exact ⟨rfl, rfl⟩
  · cases h

/-- A camera-node visit never touches the two matrix stacks. -/
theorem visitCameraNode_stacks (P : Params) (s s' : VState)
    (h : visitCameraNode P s = some s') :
    s'.transformations = s.transformations ∧
    s'.invTransformations = s.invTransformations := by
  unfold visitCameraNode at h
  split at h
  · cases h; exact ⟨rfl, rfl⟩
  · cases h

/-- A light-node visit never touches the two matrix stacks. -/
theorem visitLightNode_stacks (s s' : VState)
    (h : visitLightNode s = some s') :
    s'.transformations = s.transformations ∧
    s'.invTransformations = s.invTransformations := by
  unfold visitLightNode at h
  split at h
  · cases h; exact ⟨rfl, rfl⟩
  · cases h

mutual
/-- Every successful visit leaves the depths of both stacks unchanged. -/
theorem visit_stackLen (P : Params) (n : Node) (s s' : VState)
    (h : visit P n s = some s') :
    s'.transformations.length = s.transformations.length ∧
    s'.invTransformations.length = s.invTransformations.length := by
  cases n with
  | group t cs =>
    simp only [visit] at h
    split at h
    case h_1 top topInv htop htopInv =>
      split at h
      case h_1 s2 hvl =>
        have ih := visitList_stackLen P cs _ s2 hvl
        cases h
        simp only [List.length_cons] at ih
        constructor
        · simp only [List.length_tail, ih.1]
          omega
        · simp only [List.length_tail, ih.2]
          omega
      case h_2 => cases h
    case h_2 => cases h
  | sphere c =>
    exact (visitNode_stacks P c _ _ s s' h).imp (congrArg List.length) (congrArg List.length)
  | aabox c =>
    exact (visitNode_stacks P c _ _ s s' h).imp (congrArg List.length) (congrArg List.length)
  | pyramid c =>
    exact (visitNode_stacks P c _ _ s s' h).imp (congrArg List.length) (congrArg List.length)
  | customShape vs idx c =>
    exact (visitNode_stacks P c _ _ s s' h).imp (congrArg List.length) (congrArg List.length)
  | textureBox => cases h; exact ⟨rfl, rfl⟩
  | textureVideoBox => cases h; exact ⟨rfl, rfl⟩
  | textureTextBox => cases h; exact ⟨rfl, rfl⟩
  | texturePyramid => cases h; exact ⟨rfl, rfl⟩
  | camera =>
    exact (visitCameraNode_stacks P s s' h).imp (congrArg List.length) (congrArg List.length)
  | light =>
    exact (visitLightNode_stacks s s' h).imp (congrArg List.length) (congrArg List.length)

/-- Every successful child-list walk leaves the stack depths unchanged. -/
theorem visitList_stackLen (P : Params) (ns : NodeList) (s s' : VState)
    (h : visitList P ns s = some s') :
    s'.transformations.length = s.transformations.length ∧
    s'.invTransformations.length = s.invTransformations.length := by
  cases ns with
  | nil => cases h; exact ⟨rfl, rfl⟩
  | cons n rest =>
    simp only [visitList] at h
    split at h
    case h_1 s1 hv =>
      have ih1 := visit_stackLen P n s s1 hv
      have ih2 := visitList_stackLen P rest s1 s' h
      exact ⟨ih2.1.trans ih1.1, ih2.2.trans ih1.2⟩
    case h_2 => cases h
end

/-! ## C7 — stack discipline over a full traversal -/

/-- C7: the per-pixel traversal starts with both stacks equal to
`[identity]`, and any full (successful) traversal of any scene tree
returns with both stacks at depth exactly 1 again. -/
theorem c7_stack_discipline (P : Params) (scene : Node) (x y : ℚ)
    (per : Persist) (s' : VState)
    (h : visit P scene (initPixelState x y per) = some s') :
    (initPixelState x y per).transformations = [1] ∧
    (initPixelState x y per).invTransformations = [1] ∧
    s'.transformations.length = 1 ∧ s'.invTransformations.length = 1 := by
  have hlen := visit_stackLen P scene _ s' h
  refine ⟨rfl, rfl, ?_, ?_⟩
  · simpa [initPixelState] using hlen.1
  · simpa [initPixelState] using hlen.2

/-- C7 witness: a concrete one-light traversal from the fresh pixel
state, evaluated to its final state. -/
theorem c7_stack_discipline_witness :
    (initPixelState 0 0 per0).transformations = [1] ∧
    (initPixelState 0 0 per0).invTransformations = [1] ∧
    ({ sInit with lightPositions := [mulVecV 1 ⟨0, 0, 0, 1⟩] } : VState).transformations.length = 1 ∧
    ({ sInit with lightPositions := [mulVecV 1 ⟨0, 0, 0, 1⟩] } : VState).invTransformations.length = 1 :=
  c7_stack_discipline P0 .light 0 0 per0
    { sInit with lightPositions := [mulVecV 1 ⟨0, 0, 0, 1⟩] }
    (by simp [visit, visitLightNode, sInit, initPixelState, per0])

/-! ## C6 — group-node push/pop and inverse composition -/

/-- C6: visiting a group node pushes `top · transform.matrix` on the
forward stack and `transform.inverseMatrix · topInverse` on the inverse
stack (reversed composition), visits the children in list order on the
pushed state, and pops both stacks of the resulting state; and whenever
the pre-push tops are true inverses of each other and the transform's
two matrices are true inverses, the pushed inverse is a two-sided true
inverse of the pushed matrix. -/
theorem c6_group_push_compose (P : Params) (t : Transform) (cs : NodeList)
    (s : VState) (T Ti : Mat) (r1 r2 : List Mat)
    (h1 : s.transformations = T :: r1) (h2 : s.invTransformations = Ti :: r2) :
    (visit P (.group t cs) s =
      match visitList P cs { s with
          transformations := (T * t.matrix) :: s.transformations,
          invTransformations := (t.inverse * Ti) :: s.invTransformations } with
       | some s2 => some { s2 with transformations := s2.transformations.tail,
                                   invTransformations := s2.invTransformations.tail }
       | none => none) ∧
    (Ti * T = 1 → t.inverse * t.matrix = 1 →
      (t.inverse * Ti) * (T * t.matrix) = 1 ∧ (T * t.matrix) * (t.inverse * Ti) = 1) := by
  constructor
  · simp only [visit, h1, h2, List.head?_cons]
  · intro hTi htm
    have hleft : (t.inverse * Ti) * (T * t.matrix) = 1 := by
      rw [mul_assoc, ← mul_assoc Ti T t.matrix, hTi, one_mul, htm]
    exact ⟨hleft, Matrix.mul_eq_one_comm.mp hleft⟩

/-- C6 witness: the identity-stack, identity-transform instantiation. -/
theorem c6_group_push_compose_witness :
    (visit P0 (.group idT .nil) sInit =
      match visitList P0 .nil { sInit with
          transformations := (1 * idT.matrix) :: sInit.transformations,
          invTransformations := (idT.inverse * 1) :: sInit.invTransformations } with
       | some s2 => some { s2 with transformations := s2.transformations.tail,
                                   invTransformations := s2.invTransformations.tail }
       | none => none) ∧
    ((1 : Mat) * 1 = 1 → idT.inverse * idT.matrix = 1 →
      (idT.inverse * 1) * (1 * idT.matrix) = 1 ∧ (1 * idT.matrix) * (idT.inverse * 1) = 1) :=
  c6_group_push_compose P0 idT .nil sInit 1 1 [] [] rfl rfl

/-! ## C2 — the stored parameter mixes world and object space -/

/-- Object-space ray of the C2 state, evaluated. -/
theorem objectRayC2 :
    objectRay (translationM ⟨-5, 0, 0, 0⟩) ⟨⟨7, 0, 0, 1⟩, ⟨-1, 0, 0, 0⟩⟩ =
      ⟨⟨2, 0, 0, 1⟩, ⟨-1, 0, 0, 0⟩⟩ := by
  have h1 : mulVecV (translationM ⟨-5, 0, 0, 0⟩) ⟨7, 0, 0, 1⟩ = ⟨2, 0, 0, 1⟩ := by
    rw [mulVecV_translationM]; norm_num
  have h2 : mulVecV (translationM ⟨-5, 0, 0, 0⟩) ⟨-1, 0, 0, 0⟩ = ⟨-1, 0, 0, 0⟩ := by
    rw [mulVecV_translationM]; norm_num
  unfold objectRay
  rw [h1, h2, Vec.normalize_of_length2_one _ (by norm_num [length2])]

/-- C2 counterexample: in the concrete scene (shape under
`Translation((5,0,0))`, world ray `((7,0,0),(-1,0,0))`, genuine
object-space unit-sphere hit at `t = 1`, world hit point `(6,0,0)`), the
stored parameter is `(6 - 2)/(-1) = -4` — computed from the
*object-space* ray origin `2` — while the claim's world-space formula
gives `(6 - 7)/(-1) = 1`.  The claim is false at this input. -/
theorem c2_counterexample :
    (visitNode Pc2 (some ⟨1, 0, 0, 1⟩) .unitSphere (.sphere (some ⟨1, 0, 0, 1⟩)) sC2).map
        (fun s1 => s1.intersection.map Intersection.t) = some (some (.fin (-4))) ∧
    (visitNode Pc2 (some ⟨1, 0, 0, 1⟩) .unitSphere (.sphere (some ⟨1, 0, 0, 1⟩)) sC2).map
        (fun s1 => s1.intersection.map Intersection.point) = some (some ⟨6, 0, 0, 1⟩) ∧
    specWorldSpaceT ⟨6, 0, 0, 1⟩ ⟨⟨7, 0, 0, 1⟩, ⟨-1, 0, 0, 0⟩⟩ = .fin 1 ∧
    JsNum.fin (-4) ≠ JsNum.fin 1 := by
  have h4 : Pc2.intersect .unitSphere
      (objectRay (translationM ⟨-5, 0, 0, 0⟩) ⟨⟨7, 0, 0, 1⟩, ⟨-1, 0, 0, 0⟩⟩) =
      some ⟨.fin 1, ⟨1, 0, 0, 1⟩, ⟨1, 0, 0, 0⟩⟩ := by
    rw [objectRayC2]; simp [Pc2]
  have hv := visitNode_hit_first Pc2 (some ⟨1, 0, 0, 1⟩) .unitSphere
    (.sphere (some ⟨1, 0, 0, 1⟩)) sC2 (translationM ⟨5, 0, 0, 0⟩)
    (translationM ⟨-5, 0, 0, 0⟩) ⟨⟨7, 0, 0, 1⟩, ⟨-1, 0, 0, 0⟩⟩
    ⟨.fin 1, ⟨1, 0, 0, 1⟩, ⟨1, 0, 0, 0⟩⟩ rfl rfl rfl h4 rfl
  have hpw : mulVecV (translationM ⟨5, 0, 0, 0⟩) ⟨1, 0, 0, 1⟩ = ⟨6, 0, 0, 1⟩ := by
    rw [mulVecV_translationM]; norm_num
  refine ⟨?_, ?_, ?_, ?_⟩
  · rw [hv]
    simp only [Option.map_some, Option.map]
    rw [objectRayC2]
    simp [worldIntersection, hpw, jsDiv]
    norm_num
  · rw [hv]
    simp only [Option.map_some, Option.map]
    rw [objectRayC2]
    simp [worldIntersection, hpw]
  · simp [specWorldSpaceT, jsDiv]
    norm_num
  · simp only [ne_eq, JsNum.fin.injEq]
    norm_num

/-- C2 amended: when a shape node records a hit with no previous best
intersection, the stored parameter equals the coordinate offset between
the world-space hit point and the *object-space* ray origin, divided by
the *object-space* ray direction component (the local `ray` of
`visitNode` shadows `this.ray`, so the world ray plays no part in the
recomputation). -/
theorem c2_stored_t_uses_object_ray (P : Params) (c : Option Vec) (sh : Shape)
    (nd : Node) (s : VState) (toWorld fromWorld : Mat) (wray : Ray) (ix : Intersection)
    (h1 : s.transformations.head? = some toWorld)
    (h2 : s.invTransformations.head? = some fromWorld)
    (h3 : s.ray = some wray)
    (h4 : P.intersect sh (objectRay fromWorld wray) = some ix)
    (h5 : s.intersection = none) :
    (visitNode P c sh nd s).map (fun s1 => s1.intersection.map Intersection.t) =
      some (some (jsDiv
        ((mulVecV toWorld ix.point).x - (objectRay fromWorld wray).origin.x)
        (objectRay fromWorld wray).direction.x)) := by
  rw [visitNode_hit_first P c sh nd s toWorld fromWorld wray ix h1 h2 h3 h4 h5]
  simp [worldIntersection]

/-- C2 witness: the amended statement evaluated at the concrete C2
scene. -/
theorem c2_stored_t_uses_object_ray_witness :
    (visitNode Pc2 (some ⟨1, 0, 0, 1⟩) .unitSphere (.sphere (some ⟨1, 0, 0, 1⟩)) sC2).map
        (fun s1 => s1.intersection.map Intersection.t) =
      some (some (jsDiv
        ((mulVecV (translationM ⟨5, 0, 0, 0⟩) (⟨1, 0, 0, 1⟩ : Vec)).x -
          (objectRay (translationM ⟨-5, 0, 0, 0⟩) ⟨⟨7, 0, 0, 1⟩, ⟨-1, 0, 0, 0⟩⟩).origin.x)
        (objectRay (translationM ⟨-5, 0, 0, 0⟩) ⟨⟨7, 0, 0, 1⟩, ⟨-1, 0, 0, 0⟩⟩).direction.x)) :=
  c2_stored_t_uses_object_ray Pc2 (some ⟨1, 0, 0, 1⟩) .unitSphere
    (.sphere (some ⟨1, 0, 0, 1⟩)) sC2 (translationM ⟨5, 0, 0, 0⟩)
    (translationM ⟨-5, 0, 0, 0⟩) ⟨⟨7, 0, 0, 1⟩, ⟨-1, 0, 0, 0⟩⟩
    ⟨.fin 1, ⟨1, 0, 0, 1⟩, ⟨1, 0, 0, 0⟩⟩ rfl rfl rfl
    (by rw [objectRayC2]; simp [Pc2]) rfl

/-! ## C3 — the division is not guarded -/

/-- Object-space ray of the C3 state, evaluated. -/
theorem objectRayC3 :
    objectRay (translationM ⟨-5, 0, 0, 0⟩) ⟨⟨5, 0, 5, 1⟩, ⟨0, 0, -1, 0⟩⟩ =
      ⟨⟨0, 0, 5, 1⟩, ⟨0, 0, -1, 0⟩⟩ := by
  have h1 : mulVecV (translationM ⟨-5, 0, 0, 0⟩) ⟨5, 0, 5, 1⟩ = ⟨0, 0, 5, 1⟩ := by
    rw [mulVecV_translationM]; norm_num
  have h2 : mulVecV (translationM ⟨-5, 0, 0, 0⟩) ⟨0, 0, -1, 0⟩ = ⟨0, 0, -1, 0⟩ := by
    rw [mulVecV_translationM]; norm_num
  unfold objectRay
  rw [h1, h2, Vec.normalize_of_length2_one _ (by norm_num [length2])]

/-- C3 counterexample: in the concrete scene (shape under
`Translation((5,0,0))`, world ray `((5,0,5),(0,0,-1))` with zero
x-direction, genuine object-space unit-sphere hit at `t = 4`), the
recomputation divides the nonzero offset `5` by the zero direction
component and stores `Infinity` in the intersection parameter — no
special case intervenes, refuting the claim that no Infinity/NaN is
produced. -/
theorem c3_counterexample :
    (visitNode Pc3 (some ⟨1, 0, 0, 1⟩) .unitSphere (.sphere (some ⟨1, 0, 0, 1⟩)) sC3).map
        (fun s1 => s1.intersection.map Intersection.t) = some (some .posInf) := by
  have h4 : Pc3.intersect .unitSphere
      (objectRay (translationM ⟨-5, 0, 0, 0⟩) ⟨⟨5, 0, 5, 1⟩, ⟨0, 0, -1, 0⟩⟩) =
      some ⟨.fin 4, ⟨0, 0, 1, 1⟩, ⟨0, 0, 1, 0⟩⟩ := by
    rw [objectRayC3]; simp [Pc3]
  have hv := visitNode_hit_first Pc3 (some ⟨1, 0, 0, 1⟩) .unitSphere
    (.sphere (some ⟨1, 0, 0, 1⟩)) sC3 (translationM ⟨5, 0, 0, 0⟩)
    (translationM ⟨-5, 0, 0, 0⟩) ⟨⟨5, 0, 5, 1⟩, ⟨0, 0, -1, 0⟩⟩
    ⟨.fin 4, ⟨0, 0, 1, 1⟩, ⟨0, 0, 1, 0⟩⟩ rfl rfl rfl h4 rfl
  have hpw : mulVecV (translationM ⟨5, 0, 0, 0⟩) ⟨0, 0, 1, 1⟩ = ⟨5, 0, 1, 1⟩ := by
    rw [mulVecV_translationM]; norm_num
  rw [hv]
  simp only [Option.map_some, Option.map]
  rw [objectRayC3]
  simp only [worldIntersection, hpw]
  norm_num [jsDiv]

/-- C3 amended: the recomputation performs the division with no special
case for a zero direction component: whenever the object-space ray
direction's x-component is zero and the offset between the world hit
point and the object-space origin is positive, the stored intersection
parameter is `Infinity` (`NaN` or `-Infinity` for zero or negative
offsets). -/
theorem c3_division_unguarded (P : Params) (c : Option Vec) (sh : Shape)
    (nd : Node) (s : VState) (toWorld fromWorld : Mat) (wray : Ray) (ix : Intersection)
    (h1 : s.transformations.head? = some toWorld)
    (h2 : s.invTransformations.head? = some fromWorld)
    (h3 : s.ray = some wray)
    (h4 : P.intersect sh (objectRay fromWorld wray) = some ix)
    (h5 : s.intersection = none)
    (h6 : (objectRay fromWorld wray).direction.x = 0)
    (h7 : 0 < (mulVecV toWorld ix.point).x - (objectRay fromWorld wray).origin.x) :
    (visitNode P c sh nd s).map (fun s1 => s1.intersection.map Intersection.t) =
      some (some .posInf) := by
  rw [visitNode_hit_first P c sh nd s toWorld fromWorld wray ix h1 h2 h3 h4 h5]
  simp only [Option.map_some, Option.map, worldIntersection]
  rw [h6, jsDiv_pos_zero _ h7]

/-- C3 witness: the amended statement evaluated at the concrete C3
scene. -/
theorem c3_division_unguarded_witness :
    (visitNode Pc3 (some ⟨1, 0, 0, 1⟩) .unitSphere (.sphere (some ⟨1, 0, 0, 1⟩)) sC3).map
        (fun s1 => s1.intersection.map Intersection.t) = some (some .posInf) :=
  c3_division_unguarded Pc3 (some ⟨1, 0, 0, 1⟩) .unitSphere
    (.sphere (some ⟨1, 0, 0, 1⟩)) sC3 (translationM ⟨5, 0, 0, 0⟩)
    (translationM ⟨-5, 0, 0, 0⟩) ⟨⟨5, 0, 5, 1⟩, ⟨0, 0, -1, 0⟩⟩
    ⟨.fin 4, ⟨0, 0, 1, 1⟩, ⟨0, 0, 1, 0⟩⟩ rfl rfl rfl
    (by rw [objectRayC3]; simp [Pc3]) rfl
    (by rw [objectRayC3])
    (by rw [objectRayC3, mulVecV_translationM]; norm_num)

/-! ## C8 — strict replacement and ties -/

/-- C8: with a previous best intersection present, the candidate built
from a new hit replaces it exactly when `closerThan` holds (strictly
smaller parameter); when the two parameters are exactly equal,
`closerThan` is false and the first-stored intersection and its color
are kept. -/
theorem c8_strict_replacement (P : Params) (c : Option Vec) (sh : Shape)
    (nd : Node) (s : VState) (toWorld fromWorld : Mat) (wray : Ray)
    (ix best : Intersection)
    (h1 : s.transformations.head? = some toWorld)
    (h2 : s.invTransformations.head? = some fromWorld)
    (h3 : s.ray = some wray)
    (h4 : P.intersect sh (objectRay fromWorld wray) = some ix)
    (h5 : s.intersection = some best) :
    (closerThan (worldIntersection toWorld (objectRay fromWorld wray) ix) best = true →
      visitNode P c sh nd s = some { s with
        objectIntersections :=
          s.objectIntersections ++ [(ix, objectRay fromWorld wray, nd)],
        intersection := some (worldIntersection toWorld (objectRay fromWorld wray) ix),
        intersectionColor := c }) ∧
    (closerThan (worldIntersection toWorld (objectRay fromWorld wray) ix) best = false →
      visitNode P c sh nd s = some { s with
        objectIntersections :=
          s.objectIntersections ++ [(ix, objectRay fromWorld wray, nd)] }) ∧
    ((worldIntersection toWorld (objectRay fromWorld wray) ix).t = best.t →
      closerThan (worldIntersection toWorld (objectRay fromWorld wray) ix) best = false) := by
  have hv := visitNode_hit_best P c sh nd s toWorld fromWorld wray ix best h1 h2 h3 h4 h5
  refine ⟨fun hc => ?_, fun hc => ?_, fun ht => ?_⟩
  · rw [hv, if_pos hc]
  · rw [hv, if_neg (by simp [hc])]
  · unfold closerThan
    rw [ht]
    exact jsLt_irrefl best.t

/-- Object-space ray of the C8 state, evaluated. -/
theorem objectRayC8 :
    objectRay 1 ⟨⟨3, 0, 0, 1⟩, ⟨-1, 0, 0, 0⟩⟩ = ⟨⟨3, 0, 0, 1⟩, ⟨-1, 0, 0, 0⟩⟩ := by
  unfold objectRay
  rw [mulVecV_one, mulVecV_one, Vec.normalize_of_length2_one _ (by norm_num [length2])]

/-- C8 witness: the exact-tie instantiation (candidate parameter `2`
against stored best parameter `2`). -/
theorem c8_strict_replacement_witness :
    (closerThan (worldIntersection 1 (objectRay 1 ⟨⟨3, 0, 0, 1⟩, ⟨-1, 0, 0, 0⟩⟩)
        ⟨.fin 2, ⟨1, 0, 0, 1⟩, ⟨1, 0, 0, 0⟩⟩) ⟨.fin 2, ⟨9, 9, 9, 1⟩, ⟨1, 0, 0, 0⟩⟩ = true →
      visitNode Pc8 (some ⟨1, 1, 0, 1⟩) .unitSphere (.sphere (some ⟨1, 1, 0, 1⟩)) sC8 =
        some { sC8 with
          objectIntersections := sC8.objectIntersections ++
            [(⟨.fin 2, ⟨1, 0, 0, 1⟩, ⟨1, 0, 0, 0⟩⟩,
              objectRay 1 ⟨⟨3, 0, 0, 1⟩, ⟨-1, 0, 0, 0⟩⟩,
              .sphere (some ⟨1, 1, 0, 1⟩))],
          intersection := some (worldIntersection 1
            (objectRay 1 ⟨⟨3, 0, 0, 1⟩, ⟨-1, 0, 0, 0⟩⟩)
            ⟨.fin 2, ⟨1, 0, 0, 1⟩, ⟨1, 0, 0, 0⟩⟩),
          intersectionColor := some ⟨1, 1, 0, 1⟩ }) ∧
    (closerThan (worldIntersection 1 (objectRay 1 ⟨⟨3, 0, 0, 1⟩, ⟨-1, 0, 0, 0⟩⟩)
        ⟨.fin 2, ⟨1, 0, 0, 1⟩, ⟨1, 0, 0, 0⟩⟩) ⟨.fin 2, ⟨9, 9, 9, 1⟩, ⟨1, 0, 0, 0⟩⟩ = false →
      visitNode Pc8 (some ⟨1, 1, 0, 1⟩) .unitSphere (.sphere (some ⟨1, 1, 0, 1⟩)) sC8 =
        some { sC8 with
          objectIntersections := sC8.objectIntersections ++
            [(⟨.fin 2, ⟨1, 0, 0, 1⟩, ⟨1, 0, 0, 0⟩⟩,
              objectRay 1 ⟨⟨3, 0, 0, 1⟩, ⟨-1, 0, 0, 0⟩⟩,
              .sphere (some ⟨1, 1, 0, 1⟩))] }) ∧
    ((worldIntersection 1 (objectRay 1 ⟨⟨3, 0, 0, 1⟩, ⟨-1, 0, 0, 0⟩⟩)
        ⟨.fin 2, ⟨1, 0, 0, 1⟩, ⟨1, 0, 0, 0⟩⟩).t = JsNum.fin 2 →
      closerThan (worldIntersection 1 (objectRay 1 ⟨⟨3, 0, 0, 1⟩, ⟨-1, 0, 0, 0⟩⟩)
        ⟨.fin 2, ⟨1, 0, 0, 1⟩, ⟨1, 0, 0, 0⟩⟩) ⟨.fin 2, ⟨9, 9, 9, 1⟩, ⟨1, 0, 0, 0⟩⟩ = false) :=
  c8_strict_replacement Pc8 (some ⟨1, 1, 0, 1⟩) .unitSphere
    (.sphere (some ⟨1, 1, 0, 1⟩)) sC8 1 1 ⟨⟨3, 0, 0, 1⟩, ⟨-1, 0, 0, 0⟩⟩
    ⟨.fin 2, ⟨1, 0, 0, 1⟩, ⟨1, 0, 0, 0⟩⟩ ⟨.fin 2, ⟨9, 9, 9, 1⟩, ⟨1, 0, 0, 0⟩⟩
    rfl rfl rfl (by rw [objectRayC8]; simp [Pc8]) rfl

/-! ## C9 — black fallback for a missing material -/

/-- C9: whenever a best intersection exists but the recorded color is
absent, the pixel write is fully opaque black `(0,0,0,255)` — for every
shading function (it is not invoked) and without error. -/
theorem c9_black_fallback (P : Params) (pv : PhongValues) (s : VState)
    (ix : Intersection)
    (h1 : s.intersection = some ix) (h2 : s.intersectionColor = none) :
    shadeResult P pv s = some (some (0, 0, 0, 255)) := by
  unfold shadeResult
  rw [h1, h2]

/-- C9 witness: the concrete intersection-but-no-color state. -/
theorem c9_black_fallback_witness :
    shadeResult P0 pv0 sC9 = some (some (0, 0, 0, 255)) :=
  c9_black_fallback P0 pv0 sC9 ⟨.fin 1, ⟨0, 0, -1, 1⟩, ⟨0, 0, 1, 0⟩⟩ rfl rfl

/-! ## C5 — alpha channel and background -/

/-- Every pixel the shader actually writes has alpha exactly 255. -/
theorem shadeResult_alpha (P : Params) (pv : PhongValues) (s : VState) (q : Px)
    (h : shadeResult P pv s = some (some q)) : q.2.2.2 = 255 := by
  unfold shadeResult at h
  split at h
  · simp at h
  · split at h
    · simp only [Option.some.injEq] at h
      subst h
      rfl
    · split at h
      · cases h
      · simp only [Option.some.injEq] at h
        subst h
        rfl

/-- C5 counterexample: a scene with a camera and no shapes, rendered at
1×1, leaves the pixel at the cleared background `(0,0,0,0)` — its alpha
channel is `0`, not fully opaque `255` as the claim requires of every
pixel. -/
theorem c5_counterexample :
    render P0 .camera arg0 [] pv0 1 1 = some [((0, 0), (0, 0, 0, 0))] ∧
    ((0 : ℚ), (0 : ℚ), (0 : ℚ), (0 : ℚ)).2.2.2 ≠ 255 := by
  constructor
  · simp [render, renderLoop, renderPixel, pixelSeq, visit, visitCameraNode,
      initPixelState, shadeResult]
  · norm_num

/-- C5 amended: after render, every pixel is either a written pixel
with alpha exactly 255, or an untouched background pixel equal to the
cleared value `(0,0,0,0)` — in particular pixels without an
intersection keep background color channels and alpha `0`. -/
theorem c5_alpha_opaque_only_on_hit (P : Params) (scene : Node)
    (pv : PhongValues) (x y : ℚ) (per : Persist) (px : Px) (per' : Persist)
    (h : renderPixel P scene pv x y per = some (px, per')) :
    px.2.2.2 = 255 ∨ px = (0, 0, 0, 0) := by
  unfold renderPixel at h
  split at h
  · cases h
  · split at h
    · cases h
    · cases h
      exact Or.inr rfl
    · next px' hshade =>
      cases h
      exact Or.inl (shadeResult_alpha P pv _ _ hshade)

/-- C5 witness: the unimplemented-placeholder scene rendered at one
pixel keeps the background. -/
theorem c5_alpha_opaque_only_on_hit_witness :
    ((0, 0, 0, 0) : Px).2.2.2 = 255 ∨ ((0, 0, 0, 0) : Px) = (0, 0, 0, 0) :=
  c5_alpha_opaque_only_on_hit P0 .textureBox pv0 0 0 per0 (0, 0, 0, 0) per0
    (by simp [renderPixel, visit, initPixelState, shadeResult, per0])

/-! ## C4 — traversal reaching shapes or lights without a camera ray -/

/-- C4 counterexample: a scene whose light node is visited before its
camera node renders without any reported error — `render` returns a
completed raster, refuting the claim that reaching a light node before
the camera ray is established makes the render fail. -/
theorem c4_counterexample :
    render P0 sceneLightFirst arg0 [] pv0 1 1 = some [((0, 0), (0, 0, 0, 0))] ∧
    render P0 sceneLightFirst arg0 [] pv0 1 1 ≠ none := by
  have h : render P0 sceneLightFirst arg0 [] pv0 1 1 = some [((0, 0), (0, 0, 0, 0))] := by
    simp [render, renderLoop, renderPixel, pixelSeq, visit, visitList,
      visitLightNode, visitCameraNode, initPixelState, shadeResult,
      sceneLightFirst, idT]
  exact ⟨h, by rw [h]; simp⟩

/-- C4 amended: a per-pixel traversal that reaches a *shape* node while
`this.ray` is still undefined faults (the visit returns `none`,
modelling the thrown `TypeError` — a crash, not a reported
configuration error), whereas a *light* node reached without a camera
ray proceeds normally and appends its world position, because lights
never read the ray. -/
theorem c4_shape_faults_light_proceeds (P : Params) (c : Option Vec)
    (s : VState) (T Ti : Mat) (r1 r2 : List Mat)
    (hray : s.ray = none) (h1 : s.transformations = T :: r1)
    (h2 : s.invTransformations = Ti :: r2) :
    visit P (.sphere c) s = none ∧
    visit P .light s =
      some { s with lightPositions := s.lightPositions ++ [mulVecV T ⟨0, 0, 0, 1⟩] } := by
  constructor
  · simp only [visit]
    unfold visitNode
    rw [h1, h2, hray]
    simp [List.head?_cons]
  · simp only [visit]
    unfold visitLightNode
    rw [h1]
    simp [List.head?_cons]

/-- C4 witness: the fresh pixel state (no camera ray yet). -/
theorem c4_shape_faults_light_proceeds_witness :
    visit P0 (.sphere none) sInit = none ∧
    visit P0 .light sInit =
      some { sInit with lightPositions := sInit.lightPositions ++ [mulVecV 1 ⟨0, 0, 0, 1⟩] } :=
  c4_shape_faults_light_proceeds P0 none sInit 1 1 [] [] rfl rfl rfl

/-! ## C10 — the camera and light arguments of render are ignored -/

/-- C10: two renders of the same scene differing only in the `camera`
and/or `lightPositions` arguments produce identical output (the body
never reads them), and the camera node visit installs the camera with
the hardcoded virtual plane width 100, height 100 and `alpha = π/3`
(stored as `1/3` in units of π), built from the traversal's own stack
top. -/
theorem c10_camera_and_lights_args_ignored :
    (∀ (P : Params) (scene : Node) (c1 c2 : CameraArg) (l1 l2 : List Vec)
        (pv : PhongValues) (w h : ℕ),
      render P scene c1 l1 pv w h = render P scene c2 l2 pv w h) ∧
    (∀ (P : Params) (s : VState) (T : Mat) (r : List Mat),
      s.transformations = T :: r →
      visit P .camera s = some { s with
        camera := some ⟨mulVecV T ⟨0, 0, 0, 1⟩, 100, 100, 1 / 3, T⟩,
        ray := some (P.makeRay s.x s.y ⟨mulVecV T ⟨0, 0, 0, 1⟩, 100, 100, 1 / 3, T⟩) }) := by
  constructor
  · intro P scene c1 c2 l1 l2 pv w h
    rfl
  · intro P s T r h
    simp only [visit]
    unfold visitCameraNode
    rw [h]
    simp [List.head?_cons]

/-- C10 witness: two renders with different camera and light arguments,
and the camera visit from the fresh pixel state. -/
theorem c10_camera_and_lights_args_ignored_witness :
    render P0 .camera arg0 [] pv0 1 1 = render P0 .camera argB [⟨1, 1, 1, 1⟩] pv0 1 1 ∧
    visit P0 .camera sInit = some { sInit with
      camera := some ⟨mulVecV 1 ⟨0, 0, 0, 1⟩, 100, 100, 1 / 3, 1⟩,
      ray := some (P0.makeRay sInit.x sInit.y ⟨mulVecV 1 ⟨0, 0, 0, 1⟩, 100, 100, 1 / 3, 1⟩) } :=
  ⟨c10_camera_and_lights_args_ignored.1 P0 .camera arg0 argB [] [⟨1, 1, 1, 1⟩] pv0 1 1,
   c10_camera_and_lights_args_ignored.2 P0 sInit 1 [] rfl⟩
